import Mathlib

/-!
Verification of the tunnel-property configuration engine (tunprop.hpp)
and the IPv4 address/netmask model (ipv4.hpp) of an OpenVPN client.

Machine integers are modelled as `Nat` values reduced modulo `2^32`
where the source's `uint32_t` arithmetic can overflow.  Fallible
operations (C++ `throw`) are modelled with `Option`/`Except`.  The
abstract `TunBuilderBase` collaborator is modelled as a function from
the call being made to the boolean the builder returns, and the engine
is modelled as emitting an explicit trace of builder calls.
-/

namespace OpenVPN

/-! ## IPv4 address model (src/openvpn/addr/ipv4.hpp) -/

namespace IPv4

/-- Embeds `IPv4::Addr::prefix_len_to_netmask_unchecked`: `~((1 << (32 - prefix_len)) - 1)`
on a 32-bit unsigned integer.  For `1 ≤ p ≤ 32` this equals
`2^32 - 2^(32-p)` (the contiguous netmask of length `p`); the source only
calls it on such `p`. -/
def prefix_len_to_netmask_unchecked (p : Nat) : Nat :=
  (2 ^ 32 - 2 ^ (32 - p)) % 2 ^ 32

/-- Embeds `IPv4::Addr::prefix_len_to_netmask`: checked variant, throws
`ipv4_bad_prefix_len` (here: `none`) unless `1 ≤ p ≤ 32`. -/
def prefix_len_to_netmask (p : Nat) : Option Nat :=
  if 1 ≤ p ∧ p ≤ 32 then some (prefix_len_to_netmask_unchecked p) else none

/-- Embeds `IPv4::Addr::netmask_from_prefix_len`: builds the netmask value for a
prefix length (the `Addr` wrapper adds nothing beyond the 32-bit value). -/
def netmask_from_prefix_len (p : Nat) : Option Nat :=
  prefix_len_to_netmask p

/-- The 5-iteration binary-search loop inside `IPv4::Addr::prefix_len`.
`fuel` counts the remaining iterations (5 at the top-level call);
falling out of the loop throws `ipv4_malformed_netmask` (here: `none`). -/
def prefix_len_loop (addr : Nat) : Nat → Nat → Nat → Option Nat
  | 0, _, _ => none
  | fuel + 1, low, high =>
    let mid := (high + low) / 2
    let test := prefix_len_to_netmask_unchecked mid
    if addr = test then some mid
    else if test < addr then prefix_len_loop addr fuel mid high
    else prefix_len_loop addr fuel low mid

/-- Embeds `IPv4::Addr::prefix_len`: all-ones is answered directly as 32, any
other value goes through the binary search over candidate lengths 1..32. -/
def prefix_len (addr : Nat) : Option Nat :=
  if addr ≠ 2 ^ 32 - 1 then prefix_len_loop addr 5 1 32
  else some 32

end IPv4

end OpenVPN

namespace OpenVPN

/-! ## IP address / address-mask-pair model used by the engine

`tunprop.hpp` works with the dual-family `IP::Addr` and
`IP::AddrMaskPair`.  An address is a family tag plus the binary value. -/

inductive IPVersion where
  | V4
  | V6
deriving DecidableEq

structure IPAddr where
  ver : IPVersion
  val : Nat
deriving DecidableEq

/-- Dotted-quad rendering of a 32-bit IPv4 value. -/
def ipv4ToString (n : Nat) : String :=
  toString (n / 2 ^ 24 % 256) ++ "." ++ toString (n / 2 ^ 16 % 256) ++ "."
    ++ toString (n / 2 ^ 8 % 256) ++ "." ++ toString (n % 256)

/-- Modelled from the spec: `IP::Addr::to_string` delegates rendering to an
external library (asio) that is not under src/; the spec only requires that
rendering round-trips parsing, so V4 uses the standard dotted quad and V6 an
injective placeholder rendering. -/
def IPAddr.to_string (a : IPAddr) : String :=
  match a.ver with
  | .V4 => ipv4ToString a.val
  | .V6 => "v6:" ++ toString a.val

/-- Modelled from the spec: `IP::Addr::version_size` (ip.hpp is not under
src/) — the full bit width of an address family: 32 for V4, 128 for V6. -/
def version_size : IPVersion → Nat
  | .V4 => 32
  | .V6 => 128

/-- Modelled from the spec: `IPv6::Addr::prefix_len` (ipv6.hpp is not under
src/) — the unique length `p` in 1..128 whose contiguous netmask equals the
value, else the malformed-netmask failure. -/
def prefix_len_v6 (val : Nat) : Option Nat :=
  (List.range 129).findSome? fun p =>
    if 1 ≤ p ∧ val = (2 ^ 128 - 2 ^ (128 - p)) % 2 ^ 128 then some p else none

/-- Embeds `IP::Addr::prefix_len`: dispatch on the family; the V4 case is the
binary search of ipv4.hpp. -/
def IPAddr.prefix_len (a : IPAddr) : Option Nat :=
  match a.ver with
  | .V4 => IPv4.prefix_len a.val
  | .V6 => prefix_len_v6 a.val

structure AddrMaskPair where
  addr : IPAddr
  netmask : IPAddr
deriving DecidableEq

/-- Modelled from the spec: `IP::AddrMaskPair::is_canonical` (addrpair.hpp is
not under src/) — "canonical: `address & netmask == address`", i.e. no host
bits set outside the network prefix. -/
def AddrMaskPair.is_canonical (p : AddrMaskPair) : Bool :=
  p.addr.val &&& p.netmask.val == p.addr.val

/-- Modelled from the spec: the pair's family (addrpair.hpp is not under
src/); the external parser guarantees address and netmask agree on it. -/
def AddrMaskPair.version (p : AddrMaskPair) : IPVersion :=
  p.addr.ver

/-- One call against the abstract `TunBuilderBase` collaborator.  Address
arguments are carried in the textual form the source passes
(`addr.to_string()`).  The proxy port is an `Option Nat` because the
source's local `http_port`/`https_port` variables are declared without an
initializer: `none` models the indeterminate never-validated value. -/
inductive BuilderCall where
  | add_address (address : String) (prefix_length : Nat) (gateway : String)
      (ipv6 : Bool) (net30 : Bool)
  | add_route (address : String) (prefix_length : Nat) (ipv6 : Bool)
  | exclude_route (address : String) (prefix_length : Nat) (ipv6 : Bool)
  | reroute_gw (ipv4 : Bool) (ipv6 : Bool) (flags : Nat)
  | add_dns_server (address : String) (ipv6 : Bool)
  | add_wins_server (address : String)
  | add_search_domain (domain : String)
  | add_proxy_bypass (bypass_host : String)
  | set_proxy_http (host : String) (port : Option Nat)
  | set_proxy_https (host : String) (port : Option Nat)
  | set_proxy_auto_config_url (url : String)
  | set_block_ipv6 (block : Bool)
  | set_remote_address (address : String) (ipv6 : Bool)
  | set_mtu (mtu : Int)
  | set_session_name (name : String)
deriving DecidableEq

/-- One `EmulateExcludeRoute::add_route(is_add, addr, prefix_length)` record
made into the exclusion emulator. -/
structure EERRecord where
  is_add : Bool
  addr : IPAddr
  prefix_length : Nat
deriving DecidableEq

instance exceptDecEq {ε α : Type} [DecidableEq ε] [DecidableEq α] :
    DecidableEq (Except ε α) := fun a b =>
  match a, b with
  | .error x, .error y =>
    if h : x = y then .isTrue (by rw [h])
    else .isFalse (fun hc => h (by cases hc; rfl))
  | .ok x, .ok y =>
    if h : x = y then .isTrue (by rw [h])
    else .isFalse (fun hc => h (by cases hc; rfl))
  | .error _, .ok _ => .isFalse (fun hc => by cases hc)
  | .ok _, .error _ => .isFalse (fun hc => by cases hc)

/-- Modelled from the spec: one occurrence of a directive (options.hpp, the
option-list tokenizer, is not under src/) — "an ordered sequence of string
tokens; token 0 is implicitly the keyword; tokens are 1-indexed arguments".
The results of the external boost-based address parsers on this occurrence's
tokens are attached as oracle fields: `parse1`/`parse2` are
`IP::Addr::from_string` applied to token 1 / token 2, `parsePair` is
`IP::AddrMaskPair::from_string` applied to the address/mask tokens. -/
structure Opt where
  tokens : List String
  parse1 : Except Unit IPAddr := .error ()
  parse2 : Except Unit IPAddr := .error ()
  parsePair : Except Unit AddrMaskPair := .error ()
deriving DecidableEq

/-- Modelled from the spec: `Option::get(i, max_len)` (options.hpp is not
under src/) — the i-th token, a per-directive error when absent. -/
def Opt.getTok (o : Opt) (i : Nat) : Except Unit String :=
  match o.tokens.get? i with
  | some s => .ok s
  | none => .error ()

/-- Embeds `TunProp::route_target`: reads the optional target token of a `route` /
`route-ipv6` directive.  `true` = add, `false` = exclude, absent defaults to
add, anything else is a per-route error. -/
def route_target (o : Opt) (target_index : Nat) : Except String Bool :=
  if target_index + 1 ≤ o.tokens.length then
    let target := o.tokens.getD target_index ""
    if target = "vpn_gateway" then .ok true
    else if target = "net_gateway" then .ok false
    else .error "route destinations other than vpn_gateway or net_gateway are not supported"
  else .ok true

/-- Embeds `TunProp::add_exclude_route`.  Returns (builder calls made, emulator
records made, completed-without-throwing).  An "add" route always calls the
builder's `tun_builder_add_route`; a failure throws before the emulator
record is made.  An "exclude" route calls the builder's native
`tun_builder_exclude_route` only when no emulator is supplied; with an
emulator it is only recorded. -/
def add_exclude_route (tb : BuilderCall → Bool) (add : Bool) (addr : IPAddr)
    (prefix_length : Nat) (ipv6 : Bool) (hasEer : Bool) :
    List BuilderCall × List EERRecord × Bool :=
  if add then
    let c := BuilderCall.add_route addr.to_string prefix_length ipv6
    if tb c then ([c], (if hasEer then [⟨true, addr, prefix_length⟩] else []), true)
    else ([c], [], false)
  else if !hasEer then
    let c := BuilderCall.exclude_route addr.to_string prefix_length ipv6
    if tb c then ([c], [], true) else ([c], [], false)
  else ([], [⟨false, addr, prefix_length⟩], true)

/-- The `try`-block body for one IPv4 `route` directive inside
`TunProp::add_routes`: parse the address/mask pair, require it canonical
and V4, resolve the target, and emit through `add_exclude_route` unless the
route is an "add" already covered by redirect-gateway-V4.  Any failure is
caught by the per-route `catch` (logged and skipped), so the result is just
whatever was emitted before the throw. -/
def process_route_v4 (tb : BuilderCall → Bool) (hasEer rgv4 : Bool) (o : Opt) :
    List BuilderCall × List EERRecord :=
  match o.parsePair with
  | .error _ => ([], [])
  | .ok pair =>
    if !pair.is_canonical then ([], [])
    else if pair.version ≠ IPVersion.V4 then ([], [])
    else
      match route_target o 3 with
      | .error _ => ([], [])
      | .ok add =>
        if !rgv4 || !add then
          match pair.netmask.prefix_len with
          | none => ([], [])
          | some plen =>
            let r := add_exclude_route tb add pair.addr plen false hasEer
            (r.1, r.2.1)
        else ([], [])

/-- The `try`-block body for one `route-ipv6` directive inside
`TunProp::add_routes` (target token index 2, single-token pair parse). -/
def process_route_v6 (tb : BuilderCall → Bool) (hasEer rgv6 : Bool) (o : Opt) :
    List BuilderCall × List EERRecord :=
  match o.parsePair with
  | .error _ => ([], [])
  | .ok pair =>
    if !pair.is_canonical then ([], [])
    else if pair.version ≠ IPVersion.V6 then ([], [])
    else
      match route_target o 2 with
      | .error _ => ([], [])
      | .ok add =>
        if !rgv6 || !add then
          match pair.netmask.prefix_len with
          | none => ([], [])
          | some plen =>
            let r := add_exclude_route tb add pair.addr plen true hasEer
            (r.1, r.2.1)
        else ([], [])

/-- The IPv4 half of `TunProp::add_routes`: process every occurrence of the
`route` directive in order, each under its own `catch`. -/
def add_routes_v4 (tb : BuilderCall → Bool) (hasEer rgv4 : Bool)
    (opts : List Opt) : List BuilderCall × List EERRecord :=
  opts.foldl (fun acc o =>
    let r := process_route_v4 tb hasEer rgv4 o
    (acc.1 ++ r.1, acc.2 ++ r.2)) ([], [])

/-- The IPv6 half of `TunProp::add_routes`. -/
def add_routes_v6 (tb : BuilderCall → Bool) (hasEer rgv6 : Bool)
    (opts : List Opt) : List BuilderCall × List EERRecord :=
  opts.foldl (fun acc o =>
    let r := process_route_v6 tb hasEer rgv6 o
    (acc.1 ++ r.1, acc.2 ++ r.2)) ([], [])

/-- Embeds `TunProp::add_routes`: the IPv4 block runs only when the V4 family is
in use (`ipv.v4()`), the IPv6 block only when V6 is (`ipv.v6()`). -/
def add_routes (tb : BuilderCall → Bool) (hasEer v4 v6 rgv4 rgv6 : Bool)
    (routeOpts routeIpv6Opts : List Opt) : List BuilderCall × List EERRecord :=
  let r4 := if v4 then add_routes_v4 tb hasEer rgv4 routeOpts else ([], [])
  let r6 := if v6 then add_routes_v6 tb hasEer rgv6 routeIpv6Opts else ([], [])
  (r4.1 ++ r6.1, r4.2 ++ r6.2)

/-- Embeds `TunProp::add_remote_bypass_routes`: exclude every cached remote-list
address other than the server address in use, as a host route of the
family's full width; each address is processed under its own `catch`. -/
def add_remote_bypass_routes (tb : BuilderCall → Bool)
    (addrlist : List IPAddr) (server_addr : IPAddr) (hasEer : Bool) :
    List BuilderCall × List EERRecord :=
  addrlist.foldl (fun acc addr =>
    if addr ≠ server_addr then
      let r := add_exclude_route tb false addr (version_size addr.ver)
        (addr.ver = IPVersion.V6) hasEer
      (acc.1 ++ r.1, acc.2 ++ r.2.1)
    else acc) ([], [])

/-! ## DHCP-option interpretation (`TunProp::add_dhcp_options`) -/

/-- Decimal parse of a token, `none` unless it is wholly made of digits. -/
def parse_decimal (s : String) : Option Nat :=
  if s.data ≠ [] ∧ s.data.all Char.isDigit then
    some (s.data.foldl (fun acc c => acc * 10 + (c.toNat - 48)) 0)
  else none

/-- Modelled from the spec: `HostPort::validate_port` (hostport.hpp is not
under src/) — the token must be numeric and a legal TCP port number
(at most 65535); failure is a per-directive error. -/
def validate_port (s : String) : Option Nat :=
  match parse_decimal s with
  | some n => if n ≤ 65535 then some n else none
  | none => none

/-- Modelled from the spec: `Split::by_space` (split.hpp is not under
src/) — "one or more whitespace-separated domain tokens". -/
def split_by_space (s : String) : List String :=
  let groups := s.data.foldr (fun c acc =>
    match acc with
    | [] => if c = ' ' then [[]] else [[c]]
    | g :: gs => if c = ' ' then [] :: g :: gs else (c :: g) :: gs) []
  (groups.filter (fun g => g ≠ [])).map String.mk

/-- Emit one builder call per string, stopping after the first call the
builder rejects (the rejection throws out of the inner loop; the per-option
`catch` then swallows it, keeping the calls already made). -/
def emit_until_fail (tb : BuilderCall → Bool) (mk : String → BuilderCall) :
    List String → List BuilderCall
  | [] => []
  | d :: rest =>
    let c := mk d
    if tb c then c :: emit_until_fail tb mk rest else [c]

/-- The mutable locals of `TunProp::add_dhcp_options` together with the
builder calls made so far.  `http_port`/`https_port` start as `none`:
the source declares them as uninitialized `unsigned int`s, assigned only
by a successful port validation. -/
structure DhcpState where
  add_dns_flag : Bool := false
  auto_config_url : String := ""
  http_host : String := ""
  http_port : Option Nat := none
  https_host : String := ""
  https_port : Option Nat := none
  calls : List BuilderCall := []
deriving DecidableEq

/-- The `try`-block body for one `dhcp-option` directive.  A throw anywhere
is caught by the per-option `catch`, so the state simply stops being
updated at the throw point — in particular `PROXY_HTTP`/`PROXY_HTTPS`
store the host token before the port is validated. -/
def process_dhcp_option (tb : BuilderCall → Bool) (st : DhcpState) (o : Opt) :
    DhcpState :=
  match o.getTok 1 with
  | .error _ => st
  | .ok type =>
    if type = "DNS" then
      if o.tokens.length ≠ 3 then st
      else
        match o.parse2 with
        | .error _ => st
        | .ok ip =>
          let c := BuilderCall.add_dns_server ip.to_string (ip.ver = IPVersion.V6)
          if tb c then { st with calls := st.calls ++ [c], add_dns_flag := true }
          else { st with calls := st.calls ++ [c] }
    else if type = "DOMAIN" then
      if o.tokens.length < 3 then st
      else
        let doms := ((o.tokens.drop 2).map split_by_space).flatten
        { st with calls := st.calls ++ emit_until_fail tb .add_search_domain doms }
    else if type = "PROXY_BYPASS" then
      if o.tokens.length < 3 then st
      else
        let hosts := ((o.tokens.drop 2).map split_by_space).flatten
        { st with calls := st.calls ++ emit_until_fail tb .add_proxy_bypass hosts }
    else if type = "PROXY_AUTO_CONFIG_URL" then
      if o.tokens.length ≠ 3 then st
      else { st with auto_config_url := o.tokens.getD 2 "" }
    else if type = "PROXY_HTTP" then
      if o.tokens.length ≠ 4 then st
      else
        let st1 := { st with http_host := o.tokens.getD 2 "" }
        match validate_port (o.tokens.getD 3 "") with
        | some p => { st1 with http_port := some p }
        | none => st1
    else if type = "PROXY_HTTPS" then
      if o.tokens.length ≠ 4 then st
      else
        let st1 := { st with https_host := o.tokens.getD 2 "" }
        match validate_port (o.tokens.getD 3 "") with
        | some p => { st1 with https_port := some p }
        | none => st1
    else if type = "WINS" then
      if o.tokens.length ≠ 3 then st
      else
        match o.parse2 with
        | .error _ => st
        | .ok ip =>
          if ip.ver ≠ IPVersion.V4 then st
          else { st with calls := st.calls ++ [BuilderCall.add_wins_server ip.to_string] }
    else st

/-- The trailing proxy block of `add_dhcp_options`: the stored proxy data
is pushed to the builder under one shared `try`, so the first rejected
call skips the rest (logged, non-fatal). -/
def proxy_calls (tb : BuilderCall → Bool) (st : DhcpState) : List BuilderCall :=
  let step3 := fun (acc : List BuilderCall) =>
    if st.auto_config_url ≠ "" then
      acc ++ [BuilderCall.set_proxy_auto_config_url st.auto_config_url]
    else acc
  let step2 := fun (acc : List BuilderCall) =>
    if st.https_host ≠ "" then
      let c := BuilderCall.set_proxy_https st.https_host st.https_port
      if tb c then step3 (acc ++ [c]) else acc ++ [c]
    else step3 acc
  if st.http_host ≠ "" then
    let c := BuilderCall.set_proxy_http st.http_host st.http_port
    if tb c then step2 [c] else [c]
  else step2 []

/-- Embeds `TunProp::add_dhcp_options`: fold the per-directive body over every
`dhcp-option` occurrence, then push the stored proxy data; returns the
calls made and the `F_ADD_DNS` flag.  An empty list models the directive
being absent from the option map. -/
def add_dhcp_options (tb : BuilderCall → Bool) (opts : List Opt) :
    List BuilderCall × Bool :=
  if opts.isEmpty then ([], false)
  else
    let st := opts.foldl (process_dhcp_option tb) {}
    (st.calls ++ proxy_calls tb st, st.add_dns_flag)

/-- Embeds `TunProp::add_google_dns`: `8.8.8.8` then — only if that call was
accepted — `8.8.4.4`; a rejection of either throws the fatal
`tun_prop_dhcp_option_error`.  Returns (calls made, both accepted). -/
def add_google_dns (tb : BuilderCall → Bool) : List BuilderCall × Bool :=
  let c1 := BuilderCall.add_dns_server "8.8.8.8" false
  if tb c1 then
    let c2 := BuilderCall.add_dns_server "8.8.4.4" false
    if tb c2 then ([c1, c2], true) else ([c1, c2], false)
  else ([c1], false)

/-! ## The tail of `TunProp::configure_builder` (block-ipv6, DNS fallback,
remote address, MTU, session name) -/

/-- The session-name step: one `tun_builder_set_session_name` call when the
configured name is non-empty; a `false` return is the fatal
`tun_prop_error`. -/
def finalize_session (tb : BuilderCall → Bool) (session_name : String)
    (acc : List BuilderCall) : List BuilderCall × Option String :=
  if session_name ≠ "" then
    let c := BuilderCall.set_session_name session_name
    if tb c then (acc ++ [c], none)
    else (acc ++ [c], some "tun_builder_set_session_name failed")
  else (acc, none)

/-- The remote-address / MTU / session-name steps of `configure_builder`
(lines after the DNS fallback), in source order, each aborting the pass on
a `false` builder return. -/
def finalize_fields (tb : BuilderCall → Bool) (server_addr : IPAddr)
    (mtu : Int) (session_name : String) : List BuilderCall × Option String :=
  let cR := BuilderCall.set_remote_address server_addr.to_string
    (server_addr.ver = IPVersion.V6)
  if !tb cR then ([cR], some "tun_builder_set_remote_address failed")
  else if mtu ≠ 0 then
    let cM := BuilderCall.set_mtu mtu
    if !tb cM then ([cR, cM], some "tun_builder_set_mtu failed")
    else finalize_session tb session_name [cR, cM]
  else finalize_session tb session_name [cR]

/-- Result of the configure-builder tail: the builder calls made, the
stats events raised, and the fatal error (if any) that aborted it. -/
structure TailResult where
  calls : List BuilderCall
  events : List String
  err : Option String
deriving DecidableEq

/-- Lines 124-160 of `TunProp::configure_builder`: apply the dhcp-options,
the block-IPv6 flag (return value not checked by the source), the DNS
fallback policy (Google DNS when enabled — a rejection is fatal — or
one `REROUTE_GW_NO_DNS` stats event when a stats sink is present), then
the remote address, MTU and session name. -/
def configure_tail (tb : BuilderCall → Bool) (dhcpOpts : List Opt)
    (blockIPv6Present rgv4 google_dns_fallback hasStats : Bool)
    (server_addr : IPAddr) (mtu : Int) (session_name : String) : TailResult :=
  let d := add_dhcp_options tb dhcpOpts
  let base := d.1 ++ [BuilderCall.set_block_ipv6 blockIPv6Present]
  if rgv4 && !d.2 then
    if google_dns_fallback then
      let g := add_google_dns tb
      if g.2 then
        let f := finalize_fields tb server_addr mtu session_name
        ⟨base ++ g.1 ++ f.1, [], f.2⟩
      else ⟨base ++ g.1, [], some "tun_builder_add_dns_server failed for Google DNS"⟩
    else
      let ev := if hasStats then ["REROUTE_GW_NO_DNS"] else []
      let f := finalize_fields tb server_addr mtu session_name
      ⟨base ++ f.1, ev, f.2⟩
  else
    let f := finalize_fields tb server_addr mtu session_name
    ⟨base ++ f.1, [], f.2⟩

/-! ## `TunProp::tun_ifconfig` -/

inductive Topology where
  | NET30
  | SUBNET
deriving DecidableEq

/-- The topology-resolution block of `tun_ifconfig`: absent defaults to
net30; only `subnet` and `net30` are accepted. -/
def resolve_topology (topologyOpt : Option Opt) : Except String Topology :=
  match topologyOpt with
  | none => .ok .NET30
  | some o =>
    match o.getTok 1 with
    | .error _ => .error "topology directive lacks an argument"
    | .ok topstr =>
      if topstr = "subnet" then .ok .SUBNET
      else if topstr = "net30" then .ok .NET30
      else .error "only topology 'subnet' and 'net30' supported"

/-- Embeds `TunProp::route_gateway`: the optional `route-gateway` directive,
which must parse as a V4 address; absent yields the empty string. -/
def route_gateway (routeGatewayOpt : Option Opt) : Except String String :=
  match routeGatewayOpt with
  | none => .ok ""
  | some o =>
    match o.parse1 with
    | .error _ => .error "error parsing route-gateway IPv4 address"
    | .ok gateway =>
      if gateway.ver ≠ IPVersion.V4 then
        .error "route-gateway is not IPv4 (IPv6 route-gateway is passed with ifconfig-ipv6 directive)"
      else .ok gateway.to_string

/-- What `tun_ifconfig` produces on success: the address-assignment calls,
the tunnel-state address fields it wrote, and the version mask
(bit 0 = V4, bit 1 = V6). -/
structure IfconfigResult where
  calls : List BuilderCall
  vpn_ip4_addr : Option IPAddr
  vpn_ip6_addr : Option IPAddr
  ver_mask : Nat
deriving DecidableEq

/-- The net30 branch of `tun_ifconfig` for a present `ifconfig` directive:
remote (token 2) and local (token 1) must both be V4, must share their /30
(netmask 255.255.255.252), and produce one point-to-point
`tun_builder_add_address` call with the remote as gateway. -/
def tun_ifconfig_net30 (tb : BuilderCall → Bool) (o : Opt) :
    Except String (List BuilderCall × IPAddr) :=
  match o.parse2 with
  | .error _ => .error "error parsing ifconfig remote IPv4 address"
  | .ok remote =>
    match o.parse1 with
    | .error _ => .error "error parsing ifconfig local IPv4 address"
    | .ok lcl =>
      if lcl.ver ≠ IPVersion.V4 ∨ remote.ver ≠ IPVersion.V4 then
        .error "ifconfig address is not IPv4 (topology net30)"
      else if lcl.val &&& 4294967292 ≠ remote.val &&& 4294967292 then
        .error "ifconfig addresses are not in the same /30 subnet (topology net30)"
      else
        match IPv4.prefix_len 4294967292 with
        | none => .error "ipv4_malformed_netmask"
        | some plen =>
          let c := BuilderCall.add_address lcl.to_string plen remote.to_string false true
          if tb c then .ok ([c], lcl)
          else .error "tun_builder_add_address IPv4 failed (topology net30)"

/-- The subnet branch of `tun_ifconfig` for a present `ifconfig`
directive: one V4 address/mask pair, gateway from `route-gateway`. -/
def tun_ifconfig_subnet (tb : BuilderCall → Bool) (o : Opt)
    (routeGatewayOpt : Option Opt) :
    Except String (List BuilderCall × IPAddr) :=
  match o.parsePair with
  | .error _ => .error "error parsing ifconfig address pair"
  | .ok pair =>
    if pair.version ≠ IPVersion.V4 then
      .error "ifconfig address is not IPv4 (topology subnet)"
    else
      match pair.netmask.prefix_len with
      | none => .error "ipv4_malformed_netmask"
      | some plen =>
        match route_gateway routeGatewayOpt with
        | .error e => .error e
        | .ok gw =>
          let c := BuilderCall.add_address pair.addr.to_string plen gw false false
          if tb c then .ok ([c], pair.addr)
          else .error "tun_builder_add_address IPv4 failed (topology subnet)"

/-- The `ifconfig-ipv6` block of `tun_ifconfig`: a V6 address/mask pair
with an optional V6 gateway (token 2, read only when the directive has at
least 3 tokens). -/
def tun_ifconfig_v6 (tb : BuilderCall → Bool) (o : Opt) :
    Except String (List BuilderCall × IPAddr) :=
  match o.parsePair with
  | .error _ => .error "error parsing ifconfig-ipv6 address pair"
  | .ok pair =>
    if pair.version ≠ IPVersion.V6 then
      .error "ifconfig-ipv6 address is not IPv6"
    else
      let gwres : Except String String :=
        if 3 ≤ o.tokens.length then
          match o.parse2 with
          | .error _ => .error "error parsing ifconfig-ipv6 gateway address"
          | .ok gateway =>
            if gateway.ver ≠ IPVersion.V6 then
              .error "ifconfig-ipv6 gateway is not IPv6"
            else .ok gateway.to_string
        else .ok ""
      match gwres with
      | .error e => .error e
      | .ok gw =>
        match pair.netmask.prefix_len with
        | none => .error "ipv6_malformed_netmask"
        | some plen =>
          let c := BuilderCall.add_address pair.addr.to_string plen gw true false
          if tb c then .ok ([c], pair.addr)
          else .error "tun_builder_add_address IPv6 failed"

/-- Embeds `TunProp::tun_ifconfig`: resolve the topology, run the family blocks
for whichever of `ifconfig` / `ifconfig-ipv6` is present, and require at
least one family to have been configured. -/
def tun_ifconfig (tb : BuilderCall → Bool)
    (topologyOpt ifconfigOpt ifconfigIpv6Opt routeGatewayOpt : Option Opt) :
    Except String IfconfigResult :=
  match resolve_topology topologyOpt with
  | .error e => .error e
  | .ok top =>
    let v4res : Except String (Option (List BuilderCall × IPAddr)) :=
      match ifconfigOpt with
      | none => .ok none
      | some o =>
        match top with
        | .SUBNET =>
          match tun_ifconfig_subnet tb o routeGatewayOpt with
          | .error e => .error e
          | .ok r => .ok (some r)
        | .NET30 =>
          match tun_ifconfig_net30 tb o with
          | .error e => .error e
          | .ok r => .ok (some r)
    match v4res with
    | .error e => .error e
    | .ok v4 =>
      let v6res : Except String (Option (List BuilderCall × IPAddr)) :=
        match ifconfigIpv6Opt with
        | none => .ok none
        | some o =>
          match tun_ifconfig_v6 tb o with
          | .error e => .error e
          | .ok r => .ok (some r)
      match v6res with
      | .error e => .error e
      | .ok v6 =>
        let mask := (if v4.isSome then 1 else 0) + (if v6.isSome then 2 else 0)
        if mask = 0 then .error "one of ifconfig or ifconfig-ipv6 must be specified"
        else
          .ok ⟨(v4.elim [] Prod.fst) ++ (v6.elim [] Prod.fst),
               v4.map Prod.snd, v6.map Prod.snd, mask⟩

/-! ## Statement-side helpers and concrete inputs -/

/-- The optional target token of a route directive: token `i` when the
directive has more than `i` tokens, absent otherwise. -/
def targetToken (o : Opt) (i : Nat) : Option String :=
  if i + 1 ≤ o.tokens.length then some (o.tokens.getD i "") else none

/-- A builder that accepts every call. -/
def tbTrue : BuilderCall → Bool := fun _ => true

/-- A builder that rejects every call. -/
def tbFalse : BuilderCall → Bool := fun _ => false

/-- A canonical IPv4 pair 10.0.0.0/255.255.255.0. -/
def pairW : AddrMaskPair := ⟨⟨.V4, 0x0A000000⟩, ⟨.V4, 0xFFFFFF00⟩⟩

/-- Directive `route 10.0.0.0 255.255.255.0` with its parse result. -/
def routeOptW : Opt :=
  { tokens := ["route", "10.0.0.0", "255.255.255.0"], parsePair := .ok pairW }

/-- Directive `route 10.0.0.0 255.255.255.0 net_gateway`. -/
def routeOptNetGw : Opt :=
  { tokens := ["route", "10.0.0.0", "255.255.255.0", "net_gateway"],
    parsePair := .ok pairW }

/-- A non-canonical route directive (`10.0.0.5/24`): host bits outside
the mask. -/
def routeOptBad : Opt :=
  { tokens := ["route", "10.0.0.5", "255.255.255.0"],
    parsePair := .ok ⟨⟨.V4, 0x0A000005⟩, ⟨.V4, 0xFFFFFF00⟩⟩ }

/-- A second valid route directive, `10.7.0.0 255.255.0.0`. -/
def routeOptW2 : Opt :=
  { tokens := ["route", "10.7.0.0", "255.255.0.0"],
    parsePair := .ok ⟨⟨.V4, 0x0A070000⟩, ⟨.V4, 0xFFFF0000⟩⟩ }

/-- Directive `dhcp-option DNS 1.2.3.4` with its parse result. -/
def dnsOptW : Opt :=
  { tokens := ["dhcp-option", "DNS", "1.2.3.4"], parse2 := .ok ⟨.V4, 0x01020304⟩ }

/-- A builder that rejects exactly the DNS-server call for `1.2.3.4`. -/
def tbNoDns : BuilderCall → Bool :=
  fun c => c ≠ BuilderCall.add_dns_server "1.2.3.4" false

/-- A builder that rejects exactly the block-IPv6 call. -/
def tbNoBlock : BuilderCall → Bool :=
  fun c => c ≠ BuilderCall.set_block_ipv6 true

/-- The server address 1.1.1.1 used in concrete scenarios. -/
def srvW : IPAddr := ⟨.V4, 0x01010101⟩

/-! ## Helper lemmas -/

theorem route_target_absent (o : Opt) (i : Nat) (h : targetToken o i = none) :
    route_target o i = .ok true := by
  unfold targetToken at h
  unfold route_target
  by_cases hlen : i + 1 ≤ o.tokens.length
  · simp [hlen] at h
  · simp [hlen]

theorem route_target_vpn (o : Opt) (i : Nat)
    (h : targetToken o i = some "vpn_gateway") : route_target o i = .ok true := by
  unfold targetToken at h
  by_cases hlen : i + 1 ≤ o.tokens.length
  · have he : o.tokens.getD i "" = "vpn_gateway" := by
      rw [if_pos hlen] at h
      exact Option.some_injective _ h
    unfold route_target
    rw [if_pos hlen]
    simp only [he]
    decide
  · simp [hlen] at h

theorem route_target_net (o : Opt) (i : Nat)
    (h : targetToken o i = some "net_gateway") : route_target o i = .ok false := by
  unfold targetToken at h
  by_cases hlen : i + 1 ≤ o.tokens.length
  · have he : o.tokens.getD i "" = "net_gateway" := by
      rw [if_pos hlen] at h
      exact Option.some_injective _ h
    unfold route_target
    rw [if_pos hlen]
    simp only [he]
    decide
  · simp [hlen] at h

theorem route_target_other (o : Opt) (i : Nat) (s : String)
    (h : targetToken o i = some s) (h1 : s ≠ "vpn_gateway")
    (h2 : s ≠ "net_gateway") :
    route_target o i
      = .error "route destinations other than vpn_gateway or net_gateway are not supported" := by
  unfold targetToken at h
  by_cases hlen : i + 1 ≤ o.tokens.length
  · have he : o.tokens.getD i "" = s := by
      rw [if_pos hlen] at h
      exact Option.some_injective _ h
    unfold route_target
    rw [if_pos hlen]
    simp only [he]
    rw [if_neg h1, if_neg h2]
  · simp [hlen] at h

theorem add_exclude_route_add_calls (tb : BuilderCall → Bool) (addr : IPAddr)
    (plen : Nat) (ipv6 hasEer : Bool) :
    (add_exclude_route tb true addr plen ipv6 hasEer).1
      = [BuilderCall.add_route addr.to_string plen ipv6] := by
  unfold add_exclude_route
  cases h : tb (BuilderCall.add_route addr.to_string plen ipv6) <;> simp [h]

theorem add_exclude_route_add_recs (tb : BuilderCall → Bool) (addr : IPAddr)
    (plen : Nat) (ipv6 hasEer : Bool) :
    (add_exclude_route tb true addr plen ipv6 hasEer).2.1
      = if tb (BuilderCall.add_route addr.to_string plen ipv6) ∧ hasEer then
          [⟨true, addr, plen⟩] else [] := by
  unfold add_exclude_route
  cases h : tb (BuilderCall.add_route addr.to_string plen ipv6) <;>
    cases hasEer <;> simp [h]

theorem add_exclude_route_excl_noEer (tb : BuilderCall → Bool) (addr : IPAddr)
    (plen : Nat) (ipv6 : Bool) :
    (add_exclude_route tb false addr plen ipv6 false).1
        = [BuilderCall.exclude_route addr.to_string plen ipv6] ∧
      (add_exclude_route tb false addr plen ipv6 false).2.1 = [] := by
  unfold add_exclude_route
  cases h : tb (BuilderCall.exclude_route addr.to_string plen ipv6) <;> simp [h]

theorem add_exclude_route_excl_eer (tb : BuilderCall → Bool) (addr : IPAddr)
    (plen : Nat) (ipv6 : Bool) :
    add_exclude_route tb false addr plen ipv6 true
      = ([], [⟨false, addr, plen⟩], true) := by
  unfold add_exclude_route
  simp

theorem add_routes_v4_acc (tb : BuilderCall → Bool) (hasEer rgv4 : Bool) :
    ∀ (opts : List Opt) (acc : List BuilderCall × List EERRecord),
      opts.foldl (fun acc o =>
          let r := process_route_v4 tb hasEer rgv4 o
          (acc.1 ++ r.1, acc.2 ++ r.2)) acc
        = (acc.1 ++ (add_routes_v4 tb hasEer rgv4 opts).1,
           acc.2 ++ (add_routes_v4 tb hasEer rgv4 opts).2) := by
  intro opts
  induction opts with
  | nil =>
    intro acc
    simp [add_routes_v4]
  | cons o rest ih =>
    intro acc
    rw [List.foldl_cons, ih]
    conv_rhs => unfold add_routes_v4
    rw [List.foldl_cons, ih]
    simp [List.append_assoc]

/-- Appending route-directive lists splits the processing: each entry is
handled independently, so an error swallowed on one entry never stops the
rest of the list. -/
theorem add_routes_v4_append (tb : BuilderCall → Bool) (hasEer rgv4 : Bool)
    (xs ys : List Opt) :
    add_routes_v4 tb hasEer rgv4 (xs ++ ys)
      = ((add_routes_v4 tb hasEer rgv4 xs).1 ++ (add_routes_v4 tb hasEer rgv4 ys).1,
         (add_routes_v4 tb hasEer rgv4 xs).2 ++ (add_routes_v4 tb hasEer rgv4 ys).2) := by
  unfold add_routes_v4
  rw [List.foldl_append]
  rw [add_routes_v4_acc tb hasEer rgv4 ys]
  rfl

theorem process_route_v4_char (tb : BuilderCall → Bool) (hasEer rgv4 : Bool)
    (o : Opt) (pair : AddrMaskPair) (add : Bool)
    (hp : o.parsePair = .ok pair) (hc : pair.is_canonical = true)
    (hv : pair.version = IPVersion.V4) (hrt : route_target o 3 = .ok add) :
    process_route_v4 tb hasEer rgv4 o
      = if !rgv4 || !add then
          match pair.netmask.prefix_len with
          | none => ([], [])
          | some plen =>
            ((add_exclude_route tb add pair.addr plen false hasEer).1,
             (add_exclude_route tb add pair.addr plen false hasEer).2.1)
        else ([], []) := by
  unfold process_route_v4
  rw [hp]
  simp only [hc, hv, hrt, Bool.not_true, ne_eq, not_true_eq_false, if_false,
    Bool.false_eq_true]

/-! ## Claim theorems -/

/-- Soundness of the binary-search loop: a `some p` answer is only ever
produced when `addr` is exactly the contiguous netmask of length `p`,
with `p` drawn from the live search interval (so `1 ≤ p ≤ 32` under the
top-level bounds). -/
theorem prefix_len_loop_sound (addr : Nat) :
    ∀ (fuel low high p : Nat), 1 ≤ low → low ≤ high → high ≤ 32 →
      IPv4.prefix_len_loop addr fuel low high = some p →
      1 ≤ p ∧ p ≤ 32 ∧ addr = IPv4.prefix_len_to_netmask_unchecked p := by
  intro fuel
  induction fuel with
  | zero =>
    intro low high p _ _ _ h
    simp [IPv4.prefix_len_loop] at h
  | succ n ih =>
    intro low high p h1 h2 h3 h
    simp only [IPv4.prefix_len_loop] at h
    by_cases he : addr = IPv4.prefix_len_to_netmask_unchecked ((high + low) / 2)
    · simp only [he, if_pos rfl] at h
      have hp : p = (high + low) / 2 := by
        exact (Option.some_injective _ h).symm
      subst hp
      refine ⟨by omega, by omega, he⟩
    · simp only [if_neg he] at h
      by_cases hlt : IPv4.prefix_len_to_netmask_unchecked ((high + low) / 2) < addr
      · simp only [if_pos hlt] at h
        exact ih ((high + low) / 2) high p (by omega) (by omega) h3 h
      · simp only [if_neg hlt] at h
        exact ih low ((high + low) / 2) p h1 (by omega) (by omega) h

/-- Any `some p` answer of `prefix_len` identifies `addr` as the
contiguous netmask of length `p`, `1 ≤ p ≤ 32`. -/
theorem prefix_len_sound (addr p : Nat)
    (h : IPv4.prefix_len addr = some p) :
    1 ≤ p ∧ p ≤ 32 ∧ addr = IPv4.prefix_len_to_netmask_unchecked p := by
  unfold IPv4.prefix_len at h
  by_cases ha : addr = 2 ^ 32 - 1
  · simp only [ha, ne_eq, not_true_eq_false, if_false] at h
    have hp : p = 32 := by exact (Option.some_injective _ h).symm
    subst hp
    refine ⟨by omega, by omega, ?_⟩
    rw [ha]
    decide
  · simp only [ne_eq, ha, not_false_eq_true, if_true] at h
    exact prefix_len_loop_sound addr 5 1 32 p (by omega) (by omega) (by omega) h

/-- C5: for every prefix length `1 ≤ p ≤ 32`, converting `p` to a netmask
and back returns exactly `p`; the all-ones mask (`p = 32`) is answered
directly, every other valid mask is found by the 5-iteration search. -/
theorem netmask_prefix_len_roundtrip (p : Nat) (h1 : 1 ≤ p) (h2 : p ≤ 32) :
    (IPv4.netmask_from_prefix_len p).bind IPv4.prefix_len = some p ∧
    (p = 32 → IPv4.netmask_from_prefix_len p = some (2 ^ 32 - 1)) := by
  unfold IPv4.netmask_from_prefix_len IPv4.prefix_len_to_netmask
  interval_cases p <;> exact ⟨by decide, by decide⟩

/-- Witness for C5 at `p = 24`. -/
theorem netmask_prefix_len_roundtrip_witness :
    (IPv4.netmask_from_prefix_len 24).bind IPv4.prefix_len = some 24 :=
  (netmask_prefix_len_roundtrip 24 (by decide) (by decide)).1

/-- C6: `netmask_from_prefix_len` rejects `p = 0` and every `p > 32`;
`prefix_len` answers `some` only on the 32 contiguous netmasks (so any
other 32-bit pattern, e.g. one ending `...1010`, is rejected with the
malformed-netmask error, never a rounded length). -/
theorem netmask_prefix_len_errors :
    IPv4.netmask_from_prefix_len 0 = none ∧
    (∀ p, 32 < p → IPv4.netmask_from_prefix_len p = none) ∧
    (∀ addr p, IPv4.prefix_len addr = some p →
      1 ≤ p ∧ p ≤ 32 ∧ addr = IPv4.prefix_len_to_netmask_unchecked p) ∧
    (∀ addr, (∀ p, 1 ≤ p → p ≤ 32 →
        addr ≠ IPv4.prefix_len_to_netmask_unchecked p) →
      IPv4.prefix_len addr = none) ∧
    IPv4.prefix_len 4294967290 = none := by
  refine ⟨by decide, ?_, ?_, ?_, by decide⟩
  · intro p hp
    unfold IPv4.netmask_from_prefix_len IPv4.prefix_len_to_netmask
    rw [if_neg]
    omega
  · intro addr p h
    exact prefix_len_sound addr p h
  · intro addr hne
    cases h : IPv4.prefix_len addr with
    | none => rfl
    | some p =>
      obtain ⟨h1, h2, h3⟩ := prefix_len_sound addr p h
      exact absurd h3 (hne p h1 h2)


/-- C1: for an IPv4 route directive that parses, is canonical and is V4,
`shouldAdd` is "target token is `vpn_gateway`, defaulting to true when
absent"; an add route makes exactly one builder add-route call when
redirect-gateway-V4 is inactive and no route call at all when it is
active; an exclude route is emitted exactly once — to the emulator when
one is supplied, as the builder's native exclude call otherwise —
regardless of redirect-gateway state; any other target token is an error
for that route. -/
theorem route_v4_add_exclude_dispatch (tb : BuilderCall → Bool)
    (hasEer rgv4 : Bool) (o : Opt) (pair : AddrMaskPair) (plen : Nat)
    (hp : o.parsePair = .ok pair) (hc : pair.is_canonical = true)
    (hv : pair.version = IPVersion.V4)
    (hl : pair.netmask.prefix_len = some plen) :
    ((targetToken o 3 = none ∨ targetToken o 3 = some "vpn_gateway") →
       route_target o 3 = .ok true) ∧
    (targetToken o 3 = some "net_gateway" → route_target o 3 = .ok false) ∧
    ((targetToken o 3 = none ∨ targetToken o 3 = some "vpn_gateway") →
       rgv4 = false →
       (process_route_v4 tb hasEer rgv4 o).1
         = [BuilderCall.add_route pair.addr.to_string plen false]) ∧
    ((targetToken o 3 = none ∨ targetToken o 3 = some "vpn_gateway") →
       rgv4 = true → process_route_v4 tb hasEer rgv4 o = ([], [])) ∧
    (targetToken o 3 = some "net_gateway" →
       (hasEer = true →
          process_route_v4 tb hasEer rgv4 o = ([], [⟨false, pair.addr, plen⟩])) ∧
       (hasEer = false →
          (process_route_v4 tb hasEer rgv4 o).1
              = [BuilderCall.exclude_route pair.addr.to_string plen false] ∧
            (process_route_v4 tb hasEer rgv4 o).2 = [])) ∧
    (∀ s, targetToken o 3 = some s → s ≠ "vpn_gateway" → s ≠ "net_gateway" →
       route_target o 3
           = .error "route destinations other than vpn_gateway or net_gateway are not supported" ∧
         process_route_v4 tb hasEer rgv4 o = ([], [])) := by
  have htgt : ∀ h : (targetToken o 3 = none ∨ targetToken o 3 = some "vpn_gateway"),
      route_target o 3 = .ok true := by
    intro h
    cases h with
    | inl h => exact route_target_absent o 3 h
    | inr h => exact route_target_vpn o 3 h
  refine ⟨htgt, fun h => route_target_net o 3 h, ?_, ?_, ?_, ?_⟩
  · intro h hrg
    rw [process_route_v4_char tb hasEer rgv4 o pair true hp hc hv (htgt h)]
    rw [hrg, hl]
    simp [add_exclude_route_add_calls]
  · intro h hrg
    rw [process_route_v4_char tb hasEer rgv4 o pair true hp hc hv (htgt h)]
    rw [hrg]
    simp
  · intro h
    constructor
    · intro he
      subst he
      rw [process_route_v4_char tb true rgv4 o pair false hp hc hv
        (route_target_net o 3 h)]
      rw [hl]
      simp [add_exclude_route_excl_eer]
    · intro he
      subst he
      rw [process_route_v4_char tb false rgv4 o pair false hp hc hv
        (route_target_net o 3 h)]
      rw [hl]
      simp [add_exclude_route_excl_noEer]
  · intro s hs h1 h2
    have hrt := route_target_other o 3 s hs h1 h2
    refine ⟨hrt, ?_⟩
    unfold process_route_v4
    rw [hp]
    simp [hc, hv, hrt]

/-- Witness for C1: the route `10.0.0.0 255.255.255.0` (no target token)
emits exactly one builder add-route call when redirect-gateway-V4 is
inactive. -/
theorem route_v4_add_exclude_dispatch_witness :
    (process_route_v4 tbTrue false false routeOptW).1
      = [BuilderCall.add_route "10.0.0.0" 24 false] := by
  have h := route_v4_add_exclude_dispatch tbTrue false false routeOptW pairW 24
    (by rfl) (by decide) (by rfl) (by decide)
  have h3 := h.2.2.1 (Or.inl (by decide)) rfl
  rw [h3]
  decide

/-- C7: a malformed, non-canonical, wrong-family or builder-rejected
route directive is recoverable per route: list processing splits entry by
entry (so every remaining directive is still processed and the pass never
fails), the bad entry contributes no route call — except a builder-
rejected add, which contributes exactly its one failed call. -/
theorem route_errors_recoverable :
    (∀ (tb : BuilderCall → Bool) (hasEer rgv4 : Bool) (xs ys : List Opt),
      add_routes_v4 tb hasEer rgv4 (xs ++ ys)
        = ((add_routes_v4 tb hasEer rgv4 xs).1 ++ (add_routes_v4 tb hasEer rgv4 ys).1,
           (add_routes_v4 tb hasEer rgv4 xs).2 ++ (add_routes_v4 tb hasEer rgv4 ys).2)) ∧
    (∀ (tb : BuilderCall → Bool) (hasEer rgv4 : Bool) (o : Opt),
      o.parsePair = .error () → process_route_v4 tb hasEer rgv4 o = ([], [])) ∧
    (∀ (tb : BuilderCall → Bool) (hasEer rgv4 : Bool) (o : Opt)
       (pair : AddrMaskPair), o.parsePair = .ok pair →
      pair.is_canonical = false → process_route_v4 tb hasEer rgv4 o = ([], [])) ∧
    (∀ (tb : BuilderCall → Bool) (hasEer rgv4 : Bool) (o : Opt)
       (pair : AddrMaskPair), o.parsePair = .ok pair →
      pair.version ≠ IPVersion.V4 → process_route_v4 tb hasEer rgv4 o = ([], [])) ∧
    (∀ (tb : BuilderCall → Bool) (hasEer : Bool) (o : Opt)
       (pair : AddrMaskPair) (plen : Nat), o.parsePair = .ok pair →
      pair.is_canonical = true → pair.version = IPVersion.V4 →
      route_target o 3 = .ok true → pair.netmask.prefix_len = some plen →
      tb (BuilderCall.add_route pair.addr.to_string plen false) = false →
      process_route_v4 tb hasEer false o
        = ([BuilderCall.add_route pair.addr.to_string plen false], [])) := by
  refine ⟨add_routes_v4_append, ?_, ?_, ?_, ?_⟩
  · intro tb hasEer rgv4 o hp
    unfold process_route_v4
    rw [hp]
  · intro tb hasEer rgv4 o pair hp hc
    unfold process_route_v4
    rw [hp]
    simp [hc]
  · intro tb hasEer rgv4 o pair hp hv
    unfold process_route_v4
    rw [hp]
    by_cases hc : pair.is_canonical <;> simp [hc, hv]
  · intro tb hasEer o pair plen hp hc hv hrt hl htb
    rw [process_route_v4_char tb hasEer false o pair true hp hc hv hrt]
    rw [hl]
    unfold add_exclude_route
    simp [htb]

/-- Witness for C7: one non-canonical entry among three route directives
yields exactly the two add calls of the valid entries, and the bad entry
contributes nothing. -/
theorem route_errors_recoverable_witness :
    (add_routes_v4 tbTrue false false ([routeOptW, routeOptBad] ++ [routeOptW2])
        = ((add_routes_v4 tbTrue false false [routeOptW, routeOptBad]).1
            ++ (add_routes_v4 tbTrue false false [routeOptW2]).1,
           (add_routes_v4 tbTrue false false [routeOptW, routeOptBad]).2
            ++ (add_routes_v4 tbTrue false false [routeOptW2]).2)) ∧
    process_route_v4 tbTrue false false routeOptBad = ([], []) ∧
    add_routes_v4 tbTrue false false [routeOptW, routeOptBad, routeOptW2]
      = ([BuilderCall.add_route "10.0.0.0" 24 false,
          BuilderCall.add_route "10.7.0.0" 16 false], []) :=
  ⟨route_errors_recoverable.1 tbTrue false false [routeOptW, routeOptBad] [routeOptW2],
   route_errors_recoverable.2.2.1 tbTrue false false routeOptBad
     ⟨⟨.V4, 0x0A000005⟩, ⟨.V4, 0xFFFFFF00⟩⟩ (by rfl) (by decide),
   by decide⟩

theorem add_remote_bypass_acc (tb : BuilderCall → Bool) (hasEer : Bool)
    (server_addr : IPAddr) :
    ∀ (addrlist : List IPAddr) (acc : List BuilderCall × List EERRecord),
      addrlist.foldl (fun acc addr =>
          if addr ≠ server_addr then
            let r := add_exclude_route tb false addr (version_size addr.ver)
              (addr.ver = IPVersion.V6) hasEer
            (acc.1 ++ r.1, acc.2 ++ r.2.1)
          else acc) acc
        = (acc.1 ++ (add_remote_bypass_routes tb addrlist server_addr hasEer).1,
           acc.2 ++ (add_remote_bypass_routes tb addrlist server_addr hasEer).2) := by
  intro addrlist
  induction addrlist with
  | nil =>
    intro acc
    simp [add_remote_bypass_routes]
  | cons a rest ih =>
    intro acc
    rw [List.foldl_cons, ih]
    conv_rhs => unfold add_remote_bypass_routes
    rw [List.foldl_cons, ih]
    by_cases ha : a ≠ server_addr <;> simp [ha, List.append_assoc]

/-- Per-address characterization of `add_remote_bypass_routes`: every
cached address other than the server in use yields exactly one exclusion
(an emulator record when an emulator is supplied, the builder's native
exclude-route call otherwise), as a host route of the family's full
width. -/
theorem add_remote_bypass_routes_char (tb : BuilderCall → Bool)
    (hasEer : Bool) (server_addr : IPAddr) (addrlist : List IPAddr) :
    (add_remote_bypass_routes tb addrlist server_addr hasEer).1
        = addrlist.flatMap (fun addr =>
            if addr ≠ server_addr ∧ hasEer = false then
              [BuilderCall.exclude_route addr.to_string (version_size addr.ver)
                (addr.ver = IPVersion.V6)]
            else []) ∧
      (add_remote_bypass_routes tb addrlist server_addr hasEer).2
        = addrlist.flatMap (fun addr =>
            if addr ≠ server_addr ∧ hasEer = true then
              [EERRecord.mk false addr (version_size addr.ver)]
            else []) := by
  induction addrlist with
  | nil => simp [add_remote_bypass_routes]
  | cons a rest ih =>
    have hstep : add_remote_bypass_routes tb (a :: rest) server_addr hasEer
        = ((if a ≠ server_addr then
              (add_exclude_route tb false a (version_size a.ver)
                (a.ver = IPVersion.V6) hasEer).1 else [])
            ++ (add_remote_bypass_routes tb rest server_addr hasEer).1,
           (if a ≠ server_addr then
              (add_exclude_route tb false a (version_size a.ver)
                (a.ver = IPVersion.V6) hasEer).2.1 else [])
            ++ (add_remote_bypass_routes tb rest server_addr hasEer).2) := by
      conv_lhs => unfold add_remote_bypass_routes
      rw [List.foldl_cons, add_remote_bypass_acc]
      by_cases ha : a ≠ server_addr <;> simp [ha]
    rw [hstep]
    cases hasEer with
    | false =>
      refine ⟨?_, ?_⟩
      · rw [ih.1]
        by_cases ha : a ≠ server_addr <;>
          simp [ha, (add_exclude_route_excl_noEer tb a (version_size a.ver)
            (a.ver = IPVersion.V6)).1]
      · rw [ih.2]
        by_cases ha : a ≠ server_addr <;>
          simp [ha, (add_exclude_route_excl_noEer tb a (version_size a.ver)
            (a.ver = IPVersion.V6)).2]
    | true =>
      refine ⟨?_, ?_⟩
      · rw [ih.1]
        by_cases ha : a ≠ server_addr <;>
          simp [ha, add_exclude_route_excl_eer tb a (version_size a.ver)
            (a.ver = IPVersion.V6)]
      · rw [ih.2]
        by_cases ha : a ≠ server_addr <;>
          simp [ha, add_exclude_route_excl_eer tb a (version_size a.ver)
            (a.ver = IPVersion.V6)]

/-- C8: remote bypass excludes every cached remote-list address other
than the server address in use, exactly once each, as a host route whose
prefix is the family's full width (32 for V4, 128 for V6) — recorded into
the emulator when one is supplied, emitted as the builder's native
exclude-route call otherwise.  The trace is the same entry-by-entry
concatenation whatever the builder answers, so a failure on one address
never stops the remaining addresses or the pass. -/
theorem remote_bypass_excludes (tb : BuilderCall → Bool) (hasEer : Bool)
    (server_addr : IPAddr) (addrlist : List IPAddr) :
    ((add_remote_bypass_routes tb addrlist server_addr hasEer).1
        = addrlist.flatMap (fun addr =>
            if addr ≠ server_addr ∧ hasEer = false then
              [BuilderCall.exclude_route addr.to_string (version_size addr.ver)
                (addr.ver = IPVersion.V6)]
            else []) ∧
      (add_remote_bypass_routes tb addrlist server_addr hasEer).2
        = addrlist.flatMap (fun addr =>
            if addr ≠ server_addr ∧ hasEer = true then
              [EERRecord.mk false addr (version_size addr.ver)]
            else [])) ∧
    version_size IPVersion.V4 = 32 ∧ version_size IPVersion.V6 = 128 :=
  ⟨add_remote_bypass_routes_char tb hasEer server_addr addrlist, rfl, rfl⟩

theorem add_exclude_route_eer_member (tb : BuilderCall → Bool) (add : Bool)
    (addr : IPAddr) (plen : Nat) (ipv6 : Bool) (c : BuilderCall)
    (hc : c ∈ (add_exclude_route tb add addr plen ipv6 true).1) :
    c = BuilderCall.add_route addr.to_string plen ipv6 := by
  cases add with
  | true =>
    rw [add_exclude_route_add_calls] at hc
    simpa using hc
  | false =>
    rw [add_exclude_route_excl_eer] at hc
    simp at hc

theorem process_route_v4_eer_member (tb : BuilderCall → Bool) (rgv4 : Bool)
    (o : Opt) (c : BuilderCall)
    (hc : c ∈ (process_route_v4 tb true rgv4 o).1) :
    ∃ s p, c = BuilderCall.add_route s p false := by
  unfold process_route_v4 at hc
  split at hc
  · simp at hc
  · rename_i pair hpair
    split at hc
    · simp at hc
    · split at hc
      · simp at hc
      · split at hc
        · simp at hc
        · rename_i add hadd
          split at hc
          · split at hc
            · simp at hc
            · rename_i plen hplen
              simp only [] at hc
              exact ⟨pair.addr.to_string, plen,
                add_exclude_route_eer_member tb add pair.addr plen false c hc⟩
          · simp at hc

theorem add_routes_v4_eer_member (tb : BuilderCall → Bool) (rgv4 : Bool)
    (opts : List Opt) (c : BuilderCall)
    (hc : c ∈ (add_routes_v4 tb true rgv4 opts).1) :
    ∃ s p, c = BuilderCall.add_route s p false := by
  induction opts with
  | nil => simp [add_routes_v4] at hc
  | cons o rest ih =>
    rw [show o :: rest = [o] ++ rest from rfl,
      add_routes_v4_append tb true rgv4 [o] rest] at hc
    rw [List.mem_append] at hc
    cases hc with
    | inl h =>
      have h' : c ∈ (process_route_v4 tb true rgv4 o).1 := by
        simpa [add_routes_v4] using h
      exact process_route_v4_eer_member tb rgv4 o c h'
    | inr h => exact ih h

/-- C9 counterexample: with an emulator supplied and a builder that
rejects the add-route call, the route goes through `add_exclude_route`
as an "add", the builder call is made, but no emulator record is created
(the throw happens before the record), contradicting the claim that every
such route is recorded. -/
theorem eer_add_not_recorded_counterexample :
    (add_exclude_route tbFalse true ⟨.V4, 0x0A000000⟩ 24 false true).1
        = [BuilderCall.add_route "10.0.0.0" 24 false] ∧
      (add_exclude_route tbFalse true ⟨.V4, 0x0A000000⟩ 24 false true).2.1
        = [] := by
  decide

/-- C9 (amended): with an emulator supplied, an "add" route makes the
builder's add-route call and — when that call succeeds — an emulator
record with `is_add = true` (a rejected call throws before recording);
an "exclude" route is recorded only into the emulator, and the builder's
native exclude-route call is never made by route processing or remote
bypass. -/
theorem eer_records_routes (tb : BuilderCall → Bool) (addr : IPAddr)
    (plen : Nat) (ipv6 : Bool) :
    (add_exclude_route tb true addr plen ipv6 true).1
        = [BuilderCall.add_route addr.to_string plen ipv6] ∧
    (tb (BuilderCall.add_route addr.to_string plen ipv6) = true →
       (add_exclude_route tb true addr plen ipv6 true).2.1
         = [⟨true, addr, plen⟩]) ∧
    (tb (BuilderCall.add_route addr.to_string plen ipv6) = false →
       (add_exclude_route tb true addr plen ipv6 true).2.1 = []) ∧
    add_exclude_route tb false addr plen ipv6 true
        = ([], [⟨false, addr, plen⟩], true) ∧
    (∀ (rgv4 : Bool) (opts : List Opt) (s : String) (p : Nat) (b : Bool),
       BuilderCall.exclude_route s p b ∉ (add_routes_v4 tb true rgv4 opts).1) ∧
    (∀ (addrlist : List IPAddr) (server_addr : IPAddr) (s : String) (p : Nat)
       (b : Bool),
       BuilderCall.exclude_route s p b
         ∉ (add_remote_bypass_routes tb addrlist server_addr true).1) := by
  refine ⟨add_exclude_route_add_calls tb addr plen ipv6 true, ?_, ?_,
    add_exclude_route_excl_eer tb addr plen ipv6, ?_, ?_⟩
  · intro h
    rw [add_exclude_route_add_recs]
    simp [h]
  · intro h
    rw [add_exclude_route_add_recs]
    simp [h]
  · intro rgv4 opts s p b hmem
    obtain ⟨s', p', heq⟩ := add_routes_v4_eer_member tb rgv4 opts _ hmem
    simp at heq
  · intro addrlist server_addr s p b hmem
    rw [(add_remote_bypass_routes_char tb true server_addr addrlist).1] at hmem
    simp at hmem

/-- Witness for C9 (amended): a successful add with the emulator present
is recorded with `is_add = true`. -/
theorem eer_records_routes_witness :
    (add_exclude_route tbTrue true ⟨.V4, 0x0A000000⟩ 24 false true).2.1
      = [⟨true, ⟨.V4, 0x0A000000⟩, 24⟩] :=
  (eer_records_routes tbTrue ⟨.V4, 0x0A000000⟩ 24 false).2.1 (by decide)

theorem tun_ifconfig_net30_lift (tb : BuilderCall → Bool)
    (topologyOpt : Option Opt) (o : Opt) (routeGatewayOpt : Option Opt)
    (htop : resolve_topology topologyOpt = .ok Topology.NET30) :
    tun_ifconfig tb topologyOpt (some o) none routeGatewayOpt
      = (match tun_ifconfig_net30 tb o with
         | .error e => .error e
         | .ok r => .ok ⟨r.1, some r.2, none, 1⟩) := by
  unfold tun_ifconfig
  rw [htop]
  cases h : tun_ifconfig_net30 tb o <;> simp [h]

/-- C4: under topology net30 the `ifconfig` directive needs both a local
and a remote V4 address; a /30-subnet mismatch is the fatal same-subnet
error; otherwise exactly one point-to-point V4 add-address builder call
(local address, prefix 30, remote as gateway) is made and the tunnel
state's V4 address is the local address. -/
theorem net30_ifconfig (tb : BuilderCall → Bool) (topologyOpt : Option Opt)
    (o : Opt) (routeGatewayOpt : Option Opt) (lcl remote : IPAddr)
    (htop : resolve_topology topologyOpt = .ok Topology.NET30)
    (h1 : o.parse1 = .ok lcl) (h2 : o.parse2 = .ok remote) :
    (∀ o' : Opt, o'.parse2 = .error () →
       tun_ifconfig tb topologyOpt (some o') none routeGatewayOpt
         = .error "error parsing ifconfig remote IPv4 address") ∧
    (lcl.ver ≠ IPVersion.V4 ∨ remote.ver ≠ IPVersion.V4 →
       tun_ifconfig tb topologyOpt (some o) none routeGatewayOpt
         = .error "ifconfig address is not IPv4 (topology net30)") ∧
    (lcl.ver = IPVersion.V4 → remote.ver = IPVersion.V4 →
       lcl.val &&& 4294967292 ≠ remote.val &&& 4294967292 →
       tun_ifconfig tb topologyOpt (some o) none routeGatewayOpt
         = .error "ifconfig addresses are not in the same /30 subnet (topology net30)") ∧
    (lcl.ver = IPVersion.V4 → remote.ver = IPVersion.V4 →
       lcl.val &&& 4294967292 = remote.val &&& 4294967292 →
       tb (BuilderCall.add_address lcl.to_string 30 remote.to_string false true)
           = true →
       tun_ifconfig tb topologyOpt (some o) none routeGatewayOpt
         = .ok ⟨[BuilderCall.add_address lcl.to_string 30 remote.to_string
                  false true], some lcl, none, 1⟩) := by
  refine ⟨?_, ?_, ?_, ?_⟩
  · intro o' hbad
    rw [tun_ifconfig_net30_lift tb topologyOpt o' routeGatewayOpt htop]
    unfold tun_ifconfig_net30
    rw [hbad]
  · intro hver
    rw [tun_ifconfig_net30_lift tb topologyOpt o routeGatewayOpt htop]
    unfold tun_ifconfig_net30
    rw [h2, h1]
    simp [hver]
  · intro hl hr hmask
    rw [tun_ifconfig_net30_lift tb topologyOpt o routeGatewayOpt htop]
    unfold tun_ifconfig_net30
    rw [h2, h1]
    simp [hl, hr, hmask]
  · intro hl hr hmask htb
    rw [tun_ifconfig_net30_lift tb topologyOpt o routeGatewayOpt htop]
    unfold tun_ifconfig_net30
    rw [h2, h1]
    have hpl : IPv4.prefix_len 4294967292 = some 30 := by decide
    simp [hl, hr, hmask, hpl, htb]

/-- Witness for C4: local 10.8.0.1, remote 10.8.0.2 (same /30) under the
default net30 topology yields exactly the point-to-point add-address
call, and local 10.8.0.1 / remote 10.8.1.2 fails with the same-subnet
error. -/
theorem net30_ifconfig_witness :
    tun_ifconfig tbTrue none
        (some { tokens := ["ifconfig", "10.8.0.1", "10.8.0.2"],
                parse1 := .ok ⟨.V4, 0x0A080001⟩, parse2 := .ok ⟨.V4, 0x0A080002⟩ })
        none none
      = .ok ⟨[BuilderCall.add_address "10.8.0.1" 30 "10.8.0.2" false true],
             some ⟨.V4, 0x0A080001⟩, none, 1⟩ ∧
    tun_ifconfig tbTrue none
        (some { tokens := ["ifconfig", "10.8.0.1", "10.8.1.2"],
                parse1 := .ok ⟨.V4, 0x0A080001⟩, parse2 := .ok ⟨.V4, 0x0A080102⟩ })
        none none
      = .error "ifconfig addresses are not in the same /30 subnet (topology net30)" := by
  constructor
  · have h := net30_ifconfig tbTrue none
      { tokens := ["ifconfig", "10.8.0.1", "10.8.0.2"],
        parse1 := .ok ⟨.V4, 0x0A080001⟩, parse2 := .ok ⟨.V4, 0x0A080002⟩ }
      none ⟨.V4, 0x0A080001⟩ ⟨.V4, 0x0A080002⟩ (by rfl) (by rfl) (by rfl)
    have hres := h.2.2.2 (by rfl) (by rfl) (by decide) (by decide)
    rw [hres]
    decide
  · have h := net30_ifconfig tbTrue none
      { tokens := ["ifconfig", "10.8.0.1", "10.8.1.2"],
        parse1 := .ok ⟨.V4, 0x0A080001⟩, parse2 := .ok ⟨.V4, 0x0A080102⟩ }
      none ⟨.V4, 0x0A080001⟩ ⟨.V4, 0x0A080102⟩ (by rfl) (by rfl) (by rfl)
    exact h.2.2.1 (by rfl) (by rfl) (by decide)

/-- C2 counterexample: the builder rejects the block-IPv6 call, yet the
pass continues to the remote-address call and finishes with no error —
the source never checks `tun_builder_set_block_ipv6`'s return value, so a
false return there is not fatal. -/
theorem finalize_block_ipv6_counterexample :
    tbNoBlock (BuilderCall.set_block_ipv6 true) = false ∧
    (configure_tail tbNoBlock [] true false false false srvW 0 "").calls
        = [BuilderCall.set_block_ipv6 true,
           BuilderCall.set_remote_address "1.1.1.1" false] ∧
    (configure_tail tbNoBlock [] true false false false srvW 0 "").err = none := by
  decide

/-- C2 (amended): finalization applies, in order, the block-IPv6 flag,
the remote address, the MTU (only when non-zero) and the session name
(only when non-empty), each through a single builder call; a false return
aborts the pass for the remote-address, MTU and session-name calls, while
the block-IPv6 call's return value is ignored.  (The hypothesis keeps the
interleaved DNS-fallback branch out of the way.) -/
theorem finalize_builder_errors (tb : BuilderCall → Bool) (dhcpOpts : List Opt)
    (blockP rgv4 google hasStats : Bool) (server : IPAddr) (mtu : Int)
    (session : String)
    (hfb : (rgv4 && !(add_dhcp_options tb dhcpOpts).2) = false) :
    (configure_tail tb dhcpOpts blockP rgv4 google hasStats server mtu session).calls
        = (add_dhcp_options tb dhcpOpts).1 ++ [BuilderCall.set_block_ipv6 blockP]
          ++ (finalize_fields tb server mtu session).1 ∧
    (configure_tail tb dhcpOpts blockP rgv4 google hasStats server mtu session).err
        = (finalize_fields tb server mtu session).2 ∧
    (configure_tail tb dhcpOpts blockP rgv4 google hasStats server mtu session).events
        = [] ∧
    (tb (BuilderCall.set_remote_address server.to_string
          (server.ver = IPVersion.V6)) = false →
       finalize_fields tb server mtu session
         = ([BuilderCall.set_remote_address server.to_string
              (server.ver = IPVersion.V6)],
            some "tun_builder_set_remote_address failed")) ∧
    (tb (BuilderCall.set_remote_address server.to_string
          (server.ver = IPVersion.V6)) = true → mtu ≠ 0 →
       tb (BuilderCall.set_mtu mtu) = false →
       finalize_fields tb server mtu session
         = ([BuilderCall.set_remote_address server.to_string
              (server.ver = IPVersion.V6), BuilderCall.set_mtu mtu],
            some "tun_builder_set_mtu failed")) ∧
    (tb (BuilderCall.set_remote_address server.to_string
          (server.ver = IPVersion.V6)) = true →
       (mtu ≠ 0 → tb (BuilderCall.set_mtu mtu) = true) → session ≠ "" →
       tb (BuilderCall.set_session_name session) = false →
       (finalize_fields tb server mtu session).2
         = some "tun_builder_set_session_name failed") ∧
    (tb (BuilderCall.set_remote_address server.to_string
          (server.ver = IPVersion.V6)) = true →
       (mtu ≠ 0 → tb (BuilderCall.set_mtu mtu) = true) →
       (session ≠ "" → tb (BuilderCall.set_session_name session) = true) →
       (finalize_fields tb server mtu session).2 = none ∧
       (finalize_fields tb server mtu session).1
         = [BuilderCall.set_remote_address server.to_string
             (server.ver = IPVersion.V6)]
           ++ (if mtu ≠ 0 then [BuilderCall.set_mtu mtu] else [])
           ++ (if session ≠ "" then [BuilderCall.set_session_name session]
               else [])) := by
  refine ⟨?_, ?_, ?_, ?_, ?_, ?_, ?_⟩
  · unfold configure_tail
    simp [hfb]
  · unfold configure_tail
    simp [hfb]
  · unfold configure_tail
    simp [hfb]
  · intro hR
    unfold finalize_fields
    simp [hR]
  · intro hR hm htb
    unfold finalize_fields
    simp [hR, hm, htb]
  · intro hR hm hs htb
    unfold finalize_fields finalize_session
    by_cases h0 : mtu = 0
    · simp [hR, h0, hs, htb]
    · simp [hR, h0, hm h0, hs, htb]
  · intro hR hm hs
    unfold finalize_fields finalize_session
    by_cases h0 : mtu = 0
    · by_cases hse : session = ""
      · simp [hR, h0, hse]
      · simp [hR, h0, hse, hs hse]
    · by_cases hse : session = ""
      · simp [hR, h0, hm h0, hse]
      · simp [hR, h0, hm h0, hse, hs hse]

/-- Witness for C2 (amended): a builder accepting everything finishes the
pass with no error and the four finalize calls in order. -/
theorem finalize_builder_errors_witness :
    (finalize_fields tbTrue srvW 1500 "sess").2 = none ∧
    (configure_tail tbTrue [] false false false false srvW 1500 "sess").calls
      = [BuilderCall.set_block_ipv6 false,
         BuilderCall.set_remote_address "1.1.1.1" false,
         BuilderCall.set_mtu 1500, BuilderCall.set_session_name "sess"] := by
  have h := finalize_builder_errors tbTrue [] false false false false srvW 1500
    "sess" (by decide)
  exact ⟨(h.2.2.2.2.2.2 (by decide) (fun _ => by decide) (fun _ => by decide)).1,
    by decide⟩

theorem configure_tail_events (tb : BuilderCall → Bool) (dhcpOpts : List Opt)
    (blockP rgv4 google hasStats : Bool) (server : IPAddr) (mtu : Int)
    (session : String) :
    (configure_tail tb dhcpOpts blockP rgv4 google hasStats server mtu
        session).events
      = if rgv4 && !(add_dhcp_options tb dhcpOpts).2 && !google && hasStats
        then ["REROUTE_GW_NO_DNS"] else [] := by
  unfold configure_tail
  cases hrg : rgv4 <;> cases hf : (add_dhcp_options tb dhcpOpts).2 <;>
    cases hg : google <;> cases hst : hasStats <;>
    simp [hrg, hf, hg, hst] <;>
    cases hgd : (add_google_dns tb).2 <;> simp [hgd]

/-- C3 counterexample: a `dhcp-option DNS 1.2.3.4` directive is present
(so a DNS dhcp-option *was seen*), but the builder rejects that one DNS
call, the `F_ADD_DNS` flag stays clear, and with redirect-gateway-V4
active and fallback enabled the two fallback addresses are still added —
contradicting the claim that a seen DNS option suppresses the fallback. -/
theorem dns_fallback_seen_counterexample :
    dnsOptW.tokens.getD 1 "" = "DNS" ∧
    (configure_tail tbNoDns [dnsOptW] false true true false srvW 0 "").calls
      = [BuilderCall.add_dns_server "1.2.3.4" false,
         BuilderCall.set_block_ipv6 false,
         BuilderCall.add_dns_server "8.8.8.8" false,
         BuilderCall.add_dns_server "8.8.4.4" false,
         BuilderCall.set_remote_address "1.1.1.1" false] := by
  decide

/-- C3 (amended): after the dhcp-options are processed, if
redirect-gateway-V4 is active and no DNS dhcp-option was *successfully
applied* (the `F_ADD_DNS` flag is clear), then with fallback enabled
exactly the two fallback addresses 8.8.8.8 and 8.8.4.4 are added as DNS
servers, and with fallback disabled (and a stats sink present) exactly
one stats event is raised — the only stats event of the pass; if the
flag is set or redirect-gateway-V4 is inactive, neither happens. -/
theorem dns_fallback_policy (tb : BuilderCall → Bool) (dhcpOpts : List Opt)
    (blockP rgv4 google hasStats : Bool) (server : IPAddr) (mtu : Int)
    (session : String) :
    (rgv4 = true → (add_dhcp_options tb dhcpOpts).2 = false → google = true →
       tb (BuilderCall.add_dns_server "8.8.8.8" false) = true →
       tb (BuilderCall.add_dns_server "8.8.4.4" false) = true →
       (configure_tail tb dhcpOpts blockP rgv4 google hasStats server mtu
           session).calls
           = (add_dhcp_options tb dhcpOpts).1
             ++ [BuilderCall.set_block_ipv6 blockP]
             ++ [BuilderCall.add_dns_server "8.8.8.8" false,
                 BuilderCall.add_dns_server "8.8.4.4" false]
             ++ (finalize_fields tb server mtu session).1 ∧
         (configure_tail tb dhcpOpts blockP rgv4 google hasStats server mtu
           session).events = []) ∧
    (rgv4 = true → (add_dhcp_options tb dhcpOpts).2 = false → google = false →
       (configure_tail tb dhcpOpts blockP rgv4 google hasStats server mtu
           session).events
           = (if hasStats then ["REROUTE_GW_NO_DNS"] else []) ∧
         (configure_tail tb dhcpOpts blockP rgv4 google hasStats server mtu
           session).calls
           = (add_dhcp_options tb dhcpOpts).1
             ++ [BuilderCall.set_block_ipv6 blockP]
             ++ (finalize_fields tb server mtu session).1) ∧
    ((add_dhcp_options tb dhcpOpts).2 = true ∨ rgv4 = false →
       (configure_tail tb dhcpOpts blockP rgv4 google hasStats server mtu
           session).calls
           = (add_dhcp_options tb dhcpOpts).1
             ++ [BuilderCall.set_block_ipv6 blockP]
             ++ (finalize_fields tb server mtu session).1 ∧
         (configure_tail tb dhcpOpts blockP rgv4 google hasStats server mtu
           session).events = []) ∧
    ((configure_tail tb dhcpOpts blockP rgv4 google hasStats server mtu
        session).events ≠ [] →
       rgv4 = true ∧ (add_dhcp_options tb dhcpOpts).2 = false ∧
         google = false ∧ hasStats = true ∧
         (configure_tail tb dhcpOpts blockP rgv4 google hasStats server mtu
           session).events = ["REROUTE_GW_NO_DNS"]) := by
  refine ⟨?_, ?_, ?_, ?_⟩
  · intro hrg hf hg h8 h4
    unfold configure_tail
    simp [hrg, hf, hg, add_google_dns, h8, h4]
  · intro hrg hf hg
    unfold configure_tail
    simp [hrg, hf, hg]
  · intro h
    unfold configure_tail
    cases h with
    | inl hf => simp [hf]
    | inr hrg => simp [hrg]
  · intro hne
    rw [configure_tail_events] at hne
    by_cases hcond :
        (rgv4 && !(add_dhcp_options tb dhcpOpts).2 && !google && hasStats) = true
    · have hc := hcond
      simp only [Bool.and_eq_true, Bool.not_eq_true'] at hc
      refine ⟨hc.1.1.1, hc.1.1.2, hc.1.2, hc.2, ?_⟩
      rw [configure_tail_events, if_pos hcond]
    · simp [hcond] at hne

/-- Witness for C3 (amended): the failed-DNS scenario raises no stats
event when no sink is present, and with fallback disabled plus a stats
sink exactly one event is raised. -/
theorem dns_fallback_policy_witness :
    (configure_tail tbNoDns [dnsOptW] false true true false srvW 0 "").events
        = [] ∧
    (configure_tail tbTrue [] false true false true srvW 0 "").events
        = ["REROUTE_GW_NO_DNS"] := by
  constructor
  · exact ((dns_fallback_policy tbNoDns [dnsOptW] false true true false srvW
      0 "").1 rfl (by decide) rfl (by decide) (by decide)).2
  · have h := ((dns_fallback_policy tbTrue [] false true false true srvW
      0 "").2.1 rfl (by decide) rfl).1
    rw [h]
    decide

/-- C10: the per-entry skip for PROXY_HTTP/PROXY_HTTPS is not atomic:
the host token is stored before the port is validated, so an entry with
an out-of-range port still overwrites the stored proxy host — a valid
entry followed by one with port 70000 makes the final set-proxy-http call
with the second entry's host and the first entry's port, and a single
invalid-port entry makes the call with the port still unset. -/
theorem proxy_host_stored_before_port :
    (∀ (tb : BuilderCall → Bool) (st : DhcpState) (h p' : String),
       validate_port p' = none →
       process_dhcp_option tb st
           { tokens := ["dhcp-option", "PROXY_HTTP", h, p'] }
         = { st with http_host := h }) ∧
    (add_dhcp_options tbTrue
        [{ tokens := ["dhcp-option", "PROXY_HTTP", "proxy1", "8080"] },
         { tokens := ["dhcp-option", "PROXY_HTTP", "proxy2", "70000"] }]).1
      = [BuilderCall.set_proxy_http "proxy2" (some 8080)] ∧
    (add_dhcp_options tbTrue
        [{ tokens := ["dhcp-option", "PROXY_HTTP", "proxy2", "70000"] }]).1
      = [BuilderCall.set_proxy_http "proxy2" none] ∧
    validate_port "70000" = none := by
  refine ⟨?_, by decide, by decide, by decide⟩
  intro tb st h p' hvp
  unfold process_dhcp_option Opt.getTok
  simp [hvp]

/-- Witness for C10: a lone invalid-port PROXY_HTTP entry still stores
its host. -/
theorem proxy_host_stored_before_port_witness :
    process_dhcp_option tbTrue {}
        { tokens := ["dhcp-option", "PROXY_HTTP", "h1", "70000"] }
      = { http_host := "h1" } := by
  rw [proxy_host_stored_before_port.1 tbTrue {} "h1" "70000" (by decide)]

/-- Witness for C6: `p = 33` is out of range for netmask construction. -/
theorem netmask_prefix_len_errors_witness :
    IPv4.netmask_from_prefix_len 33 = none :=
  netmask_prefix_len_errors.2.1 33 (by decide)

end OpenVPN
